import Mathlib

/-!
# Verification of the Milano's Pizza SkyTab POS integration core

Shallow embedding of `apps/api/src/modules/pos/providers/skytab/skytab.client.ts`,
`skytab.provider.ts` and `apps/api/src/modules/pos/pos.routes.ts`, with theorems
settling the behavioural claims about the retry/backoff client, the token cache,
the webhook processor and the failed-request retry sweep.
-/

namespace SkyTab

/-! ## HTTP client (`skytab.client.ts`) -/

/-- Mirror of the `SkyTabApiError` class: message, vendor error code, HTTP
status code and optional details. -/
structure SkyTabApiError where
  message : String
  code : String
  statusCode : Nat
  details : Option String := none
  deriving Repr, DecidableEq

/-- Errors thrown out of `request`: either a `SkyTabApiError` or a generic
`Error` (used for wrapped network failures and the final fallback). -/
inductive ReqError where
  | api (e : SkyTabApiError)
  | generic (message : String)
  deriving Repr, DecidableEq

/-- Source `DEFAULT_RETRIES` from `skytab.client.ts`. -/
def DEFAULT_RETRIES : Nat := 3

/-- Source `DEFAULT_RETRY_DELAY_MS` from `skytab.client.ts`. -/
def DEFAULT_RETRY_DELAY_MS : Nat := 1000

/-- Source `getBackoffDelay(attempt, baseDelay) = Math.min(baseDelay * 2^attempt, 30000)`. -/
def getBackoffDelay (attempt baseDelay : Nat) : Nat :=
  min (baseDelay * 2 ^ attempt) 30000

/-- Source `isRetryableError(status, error?)`: retry on 5xx, 429, or a network-level
`TypeError` whose message mentions fetch. -/
def isRetryableError (status : Nat) (isFetchTypeError : Bool) : Bool :=
  if status ≥ 500 || status == 429 then true
  else if isFetchTypeError then true
  else false

/-- A non-ok HTTP response as `request` observes it: status, the parsed
`Retry-After` header when present (`parseInt` of the header value; an
unparseable header behaves like `0`, which is falsy in the source), and the
parsed `SkyTabErrorResponse` error fields. -/
structure HttpErrorResponse where
  status : Nat
  retryAfter : Option Nat := none
  errorCode : Option String := none
  errorMessage : Option String := none
  errorDetails : Option String := none
  deriving Repr, DecidableEq

/-- Outcome of one `fetch` attempt inside `request`. -/
inductive AttemptOutcome where
  | ok (body : String)
  | httpError (resp : HttpErrorResponse)
  | networkError (message : String)
  deriving Repr

/-- The `SkyTabApiError` built by `request` from a non-ok response:
`errorData.error?.message || "Request failed with status ..."`,
`errorData.error?.code || 'UNKNOWN_ERROR'`, `response.status`. -/
def errorOfResponse (resp : HttpErrorResponse) : SkyTabApiError :=
  { message := resp.errorMessage.getD s!"Request failed with status {resp.status}"
    code := resp.errorCode.getD "UNKNOWN_ERROR"
    statusCode := resp.status
    details := resp.errorDetails }

/-- Result of a `request` run: how many fetch attempts were made, the sleep
durations (ms) performed between attempts, and the final outcome. -/
structure RequestTrace where
  attempts : Nat
  waits : List Nat
  result : Except ReqError String
  deriving Repr

/-- The retry loop body of `SkyTabClient.request`. `env attempt` is the outcome
of the fetch on that attempt; `fuel` counts the loop iterations left
(`maxRetries + 1 - attempt`); `lastError` mirrors the `lastError` variable.
Each case follows the source:
* ok response: return the body;
* non-ok response: if `isRetryableError(status)` and attempts remain, sleep
  `getBackoffDelay(attempt, baseDelay)` and continue; else if the status is 429
  with a `Retry-After` header and attempts remain, sleep
  `parseInt(retryAfter) * 1000 || getBackoffDelay(...)` and continue; else
  throw a `SkyTabApiError` — which the surrounding `catch` rethrows at once
  when the status is not retryable, and otherwise records in `lastError`
  before the loop moves on (and, the loop being over, rethrows);
* network `TypeError`: record in `lastError`; if attempts remain, sleep the
  backoff and continue, else fall out of the loop and throw `lastError`. -/
def requestLoop (env : Nat → AttemptOutcome) (maxRetries baseDelay : Nat) :
    Nat → Nat → Option ReqError → RequestTrace
  | 0, _, lastError =>
      ⟨0, [], .error (lastError.getD (.generic "Request failed after all retries"))⟩
  | fuel + 1, attempt, lastError =>
      match env attempt with
      | .ok body => ⟨1, [], .ok body⟩
      | .httpError resp =>
          let e : ReqError := .api (errorOfResponse resp)
          if isRetryableError resp.status false && decide (attempt < maxRetries) then
            let d := getBackoffDelay attempt baseDelay
            let t := requestLoop env maxRetries baseDelay fuel (attempt + 1) lastError
            ⟨t.attempts + 1, d :: t.waits, t.result⟩
          else if resp.status == 429 && resp.retryAfter.isSome &&
              decide (attempt < maxRetries) then
            let v := resp.retryAfter.getD 0
            let d := if v * 1000 == 0 then getBackoffDelay attempt baseDelay else v * 1000
            let t := requestLoop env maxRetries baseDelay fuel (attempt + 1) lastError
            ⟨t.attempts + 1, d :: t.waits, t.result⟩
          else if !isRetryableError resp.status false then
            ⟨1, [], .error e⟩
          else
            let t := requestLoop env maxRetries baseDelay fuel (attempt + 1) (some e)
            ⟨t.attempts + 1, t.waits, t.result⟩
      | .networkError msg =>
          let e : ReqError := .generic msg
          if decide (attempt < maxRetries) then
            let d := getBackoffDelay attempt baseDelay
            let t := requestLoop env maxRetries baseDelay fuel (attempt + 1) (some e)
            ⟨t.attempts + 1, d :: t.waits, t.result⟩
          else
            let t := requestLoop env maxRetries baseDelay fuel (attempt + 1) (some e)
            ⟨t.attempts + 1, t.waits, t.result⟩

/-- Source `SkyTabClient.request`: run the retry loop for attempts `0 .. maxRetries`. -/
def request (env : Nat → AttemptOutcome) (maxRetries baseDelay : Nat) : RequestTrace :=
  requestLoop env maxRetries baseDelay (maxRetries + 1) 0 none

/-! ## Token cache (`SkyTabClient.getAccessToken`) -/

/-- The mutable token-cache fields of `SkyTabClient`:
`accessToken : string | null` and `tokenExpiry : Date | null` (ms epoch). -/
structure TokenState where
  accessToken : Option String := none
  tokenExpiry : Option Int := none
  deriving Repr, DecidableEq

/-- The 5-minute buffer used by `getAccessToken` (`bufferMs = 5 * 60 * 1000`). -/
def bufferMs : Int := 5 * 60 * 1000

/-- Result of a successful credential exchange (`data.result`):
the token and `expiresIn` in seconds. -/
structure AuthExchange where
  token : String
  expiresIn : Int
  deriving Repr

/-- Source `getAccessToken`: return the cached token if
`new Date(Date.now() + bufferMs) < this.tokenExpiry`; otherwise perform the
credential exchange, cache the token with
`tokenExpiry = Date.now() + expiresIn * 1000`, and return it. The returned
`Bool` records whether the credential-exchange HTTP call was made. -/
def getAccessToken (exchange : AuthExchange) (now : Int) (st : TokenState) :
    String × TokenState × Bool :=
  match st.accessToken, st.tokenExpiry with
  | some tok, some expiry =>
      if now + bufferMs < expiry then (tok, st, false)
      else
        (exchange.token,
          ⟨some exchange.token, some (now + exchange.expiresIn * 1000)⟩, true)
  | _, _ =>
      (exchange.token,
        ⟨some exchange.token, some (now + exchange.expiresIn * 1000)⟩, true)

/-- Run `getAccessToken` at each time in `times`, threading the cache state,
and count how many credential-exchange calls were made. -/
def exchangeCalls (exchange : AuthExchange) (times : List Int) (st : TokenState) : Nat :=
  match times with
  | [] => 0
  | t :: ts =>
      let r := getAccessToken exchange t st
      (if r.2.2 then 1 else 0) + exchangeCalls exchange ts r.2.1

/-! ## Provider adapter (`skytab.provider.ts`, class `SkyTabProvider`) -/

/-- Source `handleApiError`: a `SkyTabApiError` is returned unchanged; any other
error is wrapped into a `SkyTabApiError` with the default code and status 500.
`CaughtError` covers both shapes of caught value. -/
inductive CaughtError where
  | api (e : SkyTabApiError)
  | plain (message : String)
  deriving Repr, DecidableEq

/-- Source `SkyTabProvider.handleApiError(error, defaultCode)`. -/
def handleApiError (error : CaughtError) (defaultCode : String) : SkyTabApiError :=
  match error with
  | .api e => e
  | .plain msg => { message := msg, code := defaultCode, statusCode := 500 }

/-- What the `skyTabClient.post(..../cancel)` call inside `cancelOrder`
produces: either a parsed `SkyTabCancelTicketResponse` carrying
`result.success`, or a thrown error. -/
inductive CancelCallOutcome where
  | ok (success : Bool)
  | err (e : CaughtError)
  deriving Repr

/-- Source `SkyTabProvider.cancelOrder`: on a successful call return
`response.result.success`; on a thrown `SkyTabApiError` whose code is
`TICKET_NOT_FOUND` or `INVALID_TICKET_STATUS` return `true`; otherwise rethrow
via `handleApiError(error, 'ORDER_CANCEL_FAILED')`. -/
def cancelOrder (call : CancelCallOutcome) : Except SkyTabApiError Bool :=
  match call with
  | .ok success => .ok success
  | .err e =>
      match e with
      | .api a =>
          if a.code == "TICKET_NOT_FOUND" || a.code == "INVALID_TICKET_STATUS" then
            .ok true
          else .error (handleApiError e "ORDER_CANCEL_FAILED")
      | .plain _ => .error (handleApiError e "ORDER_CANCEL_FAILED")

/-- Source `SkyTabProvider.mapSkyTabStatusToLocal`: vendor ticket status to the
neutral `POSOrderStatus['status']` value; unrecognized values fall to the
`default` branch, `'pending'`. -/
def mapSkyTabStatusToLocal (status : String) : String :=
  match status with
  | "PENDING" => "pending"
  | "CONFIRMED" => "confirmed"
  | "PREPARING" => "preparing"
  | "READY" => "ready"
  | "OUT_FOR_DELIVERY" => "ready"
  | "COMPLETED" => "completed"
  | "CANCELLED" => "cancelled"
  | _ => "pending"

/-- Source `SkyTabWebhookHandler.mapSkyTabStatusToOrderStatus`: vendor ticket status
to the local order status string; unrecognized values fall to the `default`
branch, `'pending'`. -/
def mapSkyTabStatusToOrderStatus (status : String) : String :=
  match status with
  | "PENDING" => "pending"
  | "CONFIRMED" => "confirmed"
  | "PREPARING" => "preparing"
  | "READY" => "ready"
  | "OUT_FOR_DELIVERY" => "out-for-delivery"
  | "COMPLETED" => "completed"
  | "CANCELLED" => "cancelled"
  | _ => "pending"

/-- The declared values of the vendor `SkyTabTicketStatus` enum. -/
def skyTabTicketStatuses : List String :=
  ["PENDING", "CONFIRMED", "PREPARING", "READY", "OUT_FOR_DELIVERY",
   "COMPLETED", "CANCELLED"]

/-! ## Webhook handler (`skytab.provider.ts`, class `SkyTabWebhookHandler`) -/

/-- The order columns touched by the webhook handlers. -/
structure Order where
  id : String
  posOrderId : Option String := none
  status : String := "pending"
  posSyncStatus : String := "pending"
  posSyncedAt : Option Int := none
  estimatedReadyAt : Option Int := none
  cancelledAt : Option Int := none
  deriving Repr, DecidableEq

/-- An `orderStatusHistory` row created by the webhook handlers. -/
structure StatusHistoryRow where
  orderId : String
  status : String
  note : String
  changedBy : String
  deriving Repr, DecidableEq

/-- A location row (`id`, `posLocationId`). -/
structure Location where
  id : String
  posLocationId : Option String := none
  deriving Repr, DecidableEq

/-- The menu columns touched by `handleMenuEvent` (`lastSyncAt = null` marks
the menu as needing sync). -/
structure Menu where
  locationId : String
  lastSyncAt : Option Int := none
  deriving Repr, DecidableEq

/-- The menu-item columns touched by `handleMenuEvent` and `handleStockEvent`. -/
structure MenuItem where
  id : String
  posItemId : Option String := none
  isAvailable : Bool := true
  is86ed : Bool := false
  updatedAt : Int := 0
  deriving Repr, DecidableEq

/-- An `auditLog` row: `recordWebhookEvent` writes action `SKYTAB_WEBHOOK`
with `entityId = eventId` and a `changes` object carrying the processing
status and error message; `handleLocationEvent` writes `SKYTAB_HOURS_CHANGED`. -/
structure AuditLogRow where
  action : String
  entityType : String
  entityId : String
  changesStatus : Option String := none
  changesError : Option String := none
  deriving Repr, DecidableEq

/-- All database state the webhook handler reads or writes. -/
structure DbState where
  orders : List Order := []
  statusHistory : List StatusHistoryRow := []
  locations : List Location := []
  menus : List Menu := []
  menuItems : List MenuItem := []
  auditLog : List AuditLogRow := []
  deriving Repr, DecidableEq

/-- Source `SkyTabTicketWebhookData`. -/
structure TicketWebhookData where
  ticketGuid : String
  externalReference : Option String := none
  status : String := "PENDING"
  estimatedReadyTime : Option Int := none
  cancellationReason : Option String := none
  deriving Repr

/-- Source `SkyTabMenuWebhookData`. -/
structure MenuWebhookData where
  changedItems : Option (List String) := none
  deriving Repr

/-- Source `SkyTabStockWebhookData`. -/
structure StockWebhookData where
  items : List (String × Bool) := []
  deriving Repr

/-- The `data` field of a webhook payload, cast by the handler that receives it. -/
inductive WebhookData where
  | ticket (d : TicketWebhookData)
  | menu (d : MenuWebhookData)
  | stock (d : StockWebhookData)
  | empty
  deriving Repr

/-- Source `SkyTabWebhookPayload`. -/
structure WebhookPayload where
  eventType : String
  eventId : String
  locationGuid : String
  data : WebhookData
  deriving Repr

/-- The order lookup shared by the ticket handlers:
`findFirst({ OR: [{ posOrderId: ticketGuid }, { id: externalReference }] })`. -/
def findOrder (ticketGuid : String) (externalReference : Option String)
    (orders : List Order) : Option Order :=
  orders.find? fun o =>
    o.posOrderId == some ticketGuid || some o.id == externalReference

/-- Source `handleTicketEvent`: locate the order, map the vendor status, update the
order row (`status`, `posOrderId`, `posSyncStatus = 'synced'`, `posSyncedAt`,
`estimatedReadyAt` only when the webhook carries one) and append a status
history entry. A missing order is a no-op. -/
def handleTicketEvent (now : Int) (d : TicketWebhookData) (st : DbState) : DbState :=
  match findOrder d.ticketGuid d.externalReference st.orders with
  | none => st
  | some order =>
      let newStatus := mapSkyTabStatusToOrderStatus d.status
      { st with
        orders := st.orders.map fun o =>
          if o.id == order.id then
            { o with
              status := newStatus
              posOrderId := some d.ticketGuid
              posSyncStatus := "synced"
              posSyncedAt := some now
              estimatedReadyAt :=
                match d.estimatedReadyTime with
                | some t => some t
                | none => o.estimatedReadyAt }
          else o
        statusHistory := st.statusHistory ++
          [⟨order.id, newStatus, s!"Status updated from SkyTab POS: {d.status}",
            "system"⟩] }

/-- Source `handleTicketCancelled`: locate the order, set it to `cancelled` with
`cancelledAt` and `posSyncStatus = 'synced'`, and append a history entry. -/
def handleTicketCancelled (now : Int) (d : TicketWebhookData) (st : DbState) : DbState :=
  match findOrder d.ticketGuid d.externalReference st.orders with
  | none => st
  | some order =>
      let note := "Cancelled from SkyTab POS" ++
        (match d.cancellationReason with
         | some r => s!": {r}"
         | none => "")
      { st with
        orders := st.orders.map fun o =>
          if o.id == order.id then
            { o with
              status := "cancelled"
              cancelledAt := some now
              posSyncStatus := "synced" }
          else o
        statusHistory := st.statusHistory ++ [⟨order.id, "cancelled", note, "system"⟩] }

/-- Source `handleMenuEvent`: find the location by `posLocationId`; clear
`lastSyncAt` on its menus (sync needed) and touch `updatedAt` on the changed
items. A missing location is a no-op. -/
def handleMenuEvent (now : Int) (d : MenuWebhookData) (locationGuid : String)
    (st : DbState) : DbState :=
  match st.locations.find? (fun l => l.posLocationId == some locationGuid) with
  | none => st
  | some location =>
      let st := { st with
        menus := st.menus.map fun m =>
          if m.locationId == location.id then { m with lastSyncAt := none } else m }
      match d.changedItems with
      | some items =>
          if items.length > 0 then
            { st with
              menuItems := st.menuItems.map fun mi =>
                match mi.posItemId with
                | some pid => if items.contains pid then { mi with updatedAt := now } else mi
                | none => mi }
          else st
      | none => st

/-- Source `handleStockEvent`: for each `(itemGuid, isAvailable)` pair, update the
matching menu item's `is86ed`/`isAvailable`; unknown items are skipped. -/
def handleStockEvent (d : StockWebhookData) (st : DbState) : DbState :=
  d.items.foldl
    (fun st item =>
      match st.menuItems.find? (fun mi => mi.posItemId == some item.1) with
      | none => st
      | some found =>
          { st with
            menuItems := st.menuItems.map fun mi =>
              if mi.id == found.id then
                { mi with is86ed := !item.2, isAvailable := item.2 }
              else mi })
    st

/-- Source `handleLocationEvent`: find the location and append a
`SKYTAB_HOURS_CHANGED` audit-log row. A missing location is a no-op. -/
def handleLocationEvent (locationGuid : String) (st : DbState) : DbState :=
  match st.locations.find? (fun l => l.posLocationId == some locationGuid) with
  | none => st
  | some location =>
      { st with
        auditLog := st.auditLog ++
          [⟨"SKYTAB_HOURS_CHANGED", "location", location.id, none, none⟩] }

/-- Source `checkDuplicateEvent`: an `auditLog` row with action `SKYTAB_WEBHOOK` and
`entityId = eventId` exists — regardless of the recorded processing status. -/
def checkDuplicateEvent (eventId : String) (st : DbState) : Bool :=
  st.auditLog.any fun a => a.action == "SKYTAB_WEBHOOK" && a.entityId == eventId

/-- Source `recordWebhookEvent`: append an `auditLog` row with action
`SKYTAB_WEBHOOK`, `entityId = eventId` and the processing status. -/
def recordWebhookEvent (eventId : String) (status : String)
    (errorMessage : Option String) (st : DbState) : DbState :=
  { st with
    auditLog := st.auditLog ++
      [⟨"SKYTAB_WEBHOOK", "webhook", eventId, some status, errorMessage⟩] }

/-- The event-type dispatch inside `processWebhook` (an unknown event type
only logs a warning). -/
def dispatchEvent (now : Int) (p : WebhookPayload) (st : DbState) : DbState :=
  match p.eventType, p.data with
  | "ticket.created", .ticket d => handleTicketEvent now d st
  | "ticket.updated", .ticket d => handleTicketEvent now d st
  | "ticket.status_changed", .ticket d => handleTicketEvent now d st
  | "ticket.cancelled", .ticket d => handleTicketCancelled now d st
  | "menu.updated", .menu d => handleMenuEvent now d p.locationGuid st
  | "menu.item_availability_changed", .menu d => handleMenuEvent now d p.locationGuid st
  | "stock.updated", .stock d => handleStockEvent d st
  | "location.hours_changed", _ => handleLocationEvent p.locationGuid st
  | _, _ => st

/-- The result object of `processWebhook`. -/
structure WebhookResult where
  success : Bool
  message : String
  deriving Repr, DecidableEq

/-- Source `SkyTabWebhookHandler.processWebhook`. `handlerThrows` is the environment:
whether the dispatched handler's database work raises an exception on this
delivery (the handlers call Prisma, which can throw). Control flow from the
source: a recorded duplicate `eventId` short-circuits with
`{ success: true, message: 'Event already processed' }` and touches nothing;
otherwise the event is dispatched, recorded as `processed`, and a success
result returned — or, when the handler throws, the event is recorded as
`failed` and the error is rethrown. -/
def processWebhook (handlerThrows : Bool) (now : Int) (p : WebhookPayload)
    (st : DbState) : Except String WebhookResult × DbState :=
  if checkDuplicateEvent p.eventId st then
    (.ok ⟨true, "Event already processed"⟩, st)
  else if handlerThrows then
    let msg := "Failed to process webhook"
    (.error msg, recordWebhookEvent p.eventId "failed" (some msg) st)
  else
    let st := dispatchEvent now p st
    (.ok ⟨true, s!"Event {p.eventType} processed successfully"⟩,
      recordWebhookEvent p.eventId "processed" none st)

/-! ## Signature verification (`SkyTabWebhookHandler.verifySignature`) -/

/-- Value of a hex digit, if the character is one (code points: digits 48–57,
lowercase 97–102, uppercase 65–70). -/
def hexDigitVal (c : Char) : Option Nat :=
  let n := c.toNat
  if 48 ≤ n ∧ n ≤ 57 then some (n - 48)
  else if 97 ≤ n ∧ n ≤ 102 then some (n - 87)
  else if 65 ≤ n ∧ n ≤ 70 then some (n - 55)
  else none

/-- Source `Buffer.from(s, 'hex')`: decode hex-digit pairs into bytes, stopping at
the first invalid pair or odd trailing digit. -/
def hexDecode : List Char → List Nat
  | c1 :: c2 :: rest =>
      match hexDigitVal c1, hexDigitVal c2 with
      | some hi, some lo => (16 * hi + lo) :: hexDecode rest
      | _, _ => []
  | _ => []

/-- Source `verifySignature(payload, signature)`. Without a configured webhook
secret it returns `true`. Otherwise the expected signature is the hex
HMAC-SHA256 of the payload under the secret — the digest computation is a
crypto primitive, so the model takes the already-computed hex digest
`expectedHex` as input — and the received signature is hex-decoded and
compared: a decoded-length mismatch returns `false` before any byte
comparison, equal-length buffers are compared byte-for-byte
(`crypto.timingSafeEqual`). -/
def verifySignature (secretConfigured : Bool) (expectedHex : String)
    (signature : String) : Bool :=
  if !secretConfigured then true
  else
    let signatureBuffer := hexDecode signature.data
    let expectedBuffer := hexDecode expectedHex.data
    if signatureBuffer.length != expectedBuffer.length then false
    else signatureBuffer == expectedBuffer

/-! ## Webhook endpoint (`pos.routes.ts`, `POST /skytab/webhook`) -/

/-- A `pOSWebhookEvent` row as created by the endpoint. -/
structure WebhookEventRow where
  eventId : String
  eventType : String
  locationGuid : String
  status : String
  deriving Repr, DecidableEq

/-- The endpoint's HTTP response: status code, the `received` flag, and the
optional `error` field. -/
structure RouteResponse where
  status : Nat
  received : Bool
  error : Option String := none
  deriving Repr, DecidableEq

/-- State visible to the endpoint at response time, plus whether the
`setImmediate` background processing was scheduled. -/
structure RouteState where
  webhookEvents : List WebhookEventRow := []
  db : DbState := {}
  backgroundScheduled : Bool := false
  deriving Repr

/-- The synchronous part of `POST /skytab/webhook`: verify the signature
(failure → `errorResponse(..., 401)` with nothing touched and no background
processing scheduled); then store a `pending` `pOSWebhookEvent` row, schedule
the `setImmediate` background processing, and respond
`200 { received: true }`. A throw inside the handler body — `storeThrows`,
e.g. the `pOSWebhookEvent.create` failing — lands in the outer catch, which
still responds `200 { received: true, error: 'Processing failed' }`. -/
def webhookRoute (sigOk : Bool) (storeThrows : Bool) (p : WebhookPayload)
    (st : RouteState) : RouteResponse × RouteState :=
  if !sigOk then
    ({ status := 401, received := false, error := some "Invalid webhook signature" }, st)
  else if storeThrows then
    ({ status := 200, received := true, error := some "Processing failed" }, st)
  else
    ({ status := 200, received := true },
      { st with
        webhookEvents := st.webhookEvents ++
          [⟨p.eventId, p.eventType, p.locationGuid, "pending"⟩]
        backgroundScheduled := true })

/-! ## Failed-request retry sweep (`pos.routes.ts`, `POST /skytab/retry-failed`) -/

/-- A `pOSFailedRequest` row. -/
structure FailedRow where
  id : Nat
  requestType : String := "order_submit"
  status : String := "pending"
  retryCount : Nat := 0
  maxRetries : Nat := 3
  nextRetryAt : Option Int := none
  errorMessage : Option String := none
  completedAt : Option Int := none
  deriving Repr, DecidableEq

/-- The sweep's `findMany` filter: `status in ('pending','retrying')`,
`retryCount < maxRetries`, and `nextRetryAt` null or not in the future. -/
def sweepSelects (now : Int) (r : FailedRow) : Bool :=
  (r.status == "pending" || r.status == "retrying") &&
  decide (r.retryCount < r.maxRetries) &&
  (match r.nextRetryAt with
   | none => true
   | some t => decide (t ≤ now))

/-- The per-row body of the sweep loop. The row is first marked `retrying`,
then the provider operation is re-invoked (`succeeds` is its outcome):
on success the row becomes `completed`; on failure `retryCount` is
incremented, the row becomes `abandoned` when `retryCount + 1 >= maxRetries`
and `pending` otherwise, and `nextRetryAt` is set `now + min(1000 *
2^(retryCount+1), 1800000)` ahead. -/
def retryRow (succeeds : Bool) (now : Int) (r : FailedRow) : FailedRow :=
  if succeeds then
    { r with status := "completed", completedAt := some now }
  else
    { r with
      status := if r.retryCount + 1 ≥ r.maxRetries then "abandoned" else "pending"
      retryCount := r.retryCount + 1
      nextRetryAt := some (now + min (1000 * 2 ^ (r.retryCount + 1)) (30 * 60 * 1000))
      errorMessage := some "retry failed" }

/-- One sweep of `POST /skytab/retry-failed` over the `pOSFailedRequest`
table: select up to 10 eligible rows, and rewrite each selected row (matched
back into the table by primary key) through `retryRow`; `succeeds i` is the
outcome of re-invoking the provider operation for row id `i`. -/
def sweep (succeeds : Nat → Bool) (now : Int) (rows : List FailedRow) :
    List FailedRow :=
  let selectedRows := (rows.filter (sweepSelects now)).take 10
  rows.map fun r =>
    if selectedRows.any (fun s => s.id == r.id) then retryRow (succeeds r.id) now r
    else r

/-! ## Theorems -/

/-- Helper for the retry ceiling: from any point in the retry loop, a vendor
that always answers 500 consumes all remaining iterations, one fetch per
iteration, and the loop ends with the `SkyTabApiError` built from the last
response. -/
theorem requestLoop_all500 (env : Nat → AttemptOutcome) (resp : HttpErrorResponse)
    (hstatus : resp.status = 500) (henv : ∀ n, env n = .httpError resp)
    (maxRetries baseDelay : Nat) :
    ∀ fuel attempt le, 1 ≤ fuel → attempt + fuel = maxRetries + 1 →
      (requestLoop env maxRetries baseDelay fuel attempt le).attempts = fuel ∧
      (requestLoop env maxRetries baseDelay fuel attempt le).result =
        .error (.api (errorOfResponse resp)) := by
  intro fuel
  induction fuel with
  | zero => intro attempt le h _; omega
  | succ f ih =>
      intro attempt le _ hsum
      have hret : isRetryableError resp.status false = true := by
        simp [isRetryableError, hstatus]
      by_cases hlt : attempt < maxRetries
      · have hf : 1 ≤ f := by omega
        have hrec := ih (attempt + 1) le hf (by omega)
        simp only [requestLoop, henv, hret, hlt, decide_True, Bool.and_self, if_true]
        exact ⟨by rw [hrec.1], hrec.2⟩
      · have hf : f = 0 := by omega
        subst hf
        have h429 : (resp.status == 429) = false := by
          simp [hstatus]
        simp only [requestLoop, henv, hret, hlt, decide_False, Bool.and_false,
          Bool.false_and, if_false, h429, Bool.not_true, Option.getD]
        exact ⟨rfl, rfl⟩

/-- C2: if every attempt of a `SkyTabClient.request` call receives an HTTP 500
response, the client makes exactly `1 + maxRetries` fetch attempts (4 with the
default `maxRetries = 3`) and then raises the typed `SkyTabApiError` built
from the response, carrying the vendor error code and the HTTP status 500. -/
theorem request_500_retry_ceiling (env : Nat → AttemptOutcome)
    (resp : HttpErrorResponse) (maxRetries baseDelay : Nat)
    (hstatus : resp.status = 500) (henv : ∀ n, env n = .httpError resp) :
    (request env maxRetries baseDelay).attempts = 1 + maxRetries ∧
    (request env maxRetries baseDelay).result =
      .error (.api (errorOfResponse resp)) ∧
    (errorOfResponse resp).statusCode = 500 ∧
    (errorOfResponse resp).code = resp.errorCode.getD "UNKNOWN_ERROR" := by
  have h := requestLoop_all500 env resp hstatus henv maxRetries baseDelay
    (maxRetries + 1) 0 none (by omega) (by omega)
  refine ⟨?_, h.2, ?_, rfl⟩
  · rw [request, h.1]; omega
  · rw [errorOfResponse, hstatus]

/-- C2 witness: a vendor answering 500 on every attempt, with the default
`maxRetries = 3`: exactly 4 attempts and a terminal typed error. -/
theorem request_500_retry_ceiling_witness :
    (request (fun _ => .httpError { status := 500, errorCode := some "SERVER_ERROR", errorMessage := some "boom" }) DEFAULT_RETRIES DEFAULT_RETRY_DELAY_MS).attempts =
      1 + DEFAULT_RETRIES ∧
    (request (fun _ => .httpError { status := 500, errorCode := some "SERVER_ERROR", errorMessage := some "boom" }) DEFAULT_RETRIES DEFAULT_RETRY_DELAY_MS).result =
      .error (.api { message := "boom", code := "SERVER_ERROR", statusCode := 500 }) := by
  have h := request_500_retry_ceiling
    (fun _ => .httpError { status := 500, errorCode := some "SERVER_ERROR", errorMessage := some "boom" })
    { status := 500, errorCode := some "SERVER_ERROR", errorMessage := some "boom" }
    DEFAULT_RETRIES DEFAULT_RETRY_DELAY_MS rfl (fun _ => rfl)
  exact ⟨h.1, h.2.1⟩

/-- C8: a first attempt that receives a 4xx response other than 429 makes the
client raise the typed `SkyTabApiError` immediately: exactly one fetch
attempt, no sleeps, for every `maxRetries` and base delay. -/
theorem request_4xx_no_retry (env : Nat → AttemptOutcome)
    (resp : HttpErrorResponse) (maxRetries baseDelay : Nat)
    (henv : env 0 = .httpError resp)
    (h4 : 400 ≤ resp.status ∧ resp.status < 500 ∧ resp.status ≠ 429) :
    request env maxRetries baseDelay =
      ⟨1, [], .error (.api (errorOfResponse resp))⟩ := by
  have hret : isRetryableError resp.status false = false := by
    simp only [isRetryableError, if_false]
    have h1 : ¬ resp.status ≥ 500 := by omega
    have h2 : (resp.status == 429) = false := by
      simp only [beq_eq_false_iff_ne, ne_eq]
      exact h4.2.2
    simp [h1, h2]
  have h429 : (resp.status == 429) = false := by
    simp only [beq_eq_false_iff_ne, ne_eq]
    exact h4.2.2
  rw [request]
  simp only [requestLoop, henv, hret, h429, Bool.false_and]
  simp

/-- C8 witness: a 400 response on the first attempt with the default retry
configuration: one attempt, no waits, immediate typed error. -/
theorem request_4xx_no_retry_witness :
    request (fun _ => .httpError { status := 400, errorCode := some "BAD_REQUEST", errorMessage := some "bad" }) DEFAULT_RETRIES DEFAULT_RETRY_DELAY_MS =
      ⟨1, [], .error (.api { message := "bad", code := "BAD_REQUEST", statusCode := 400 })⟩ :=
  request_4xx_no_retry
    (fun _ => .httpError { status := 400, errorCode := some "BAD_REQUEST", errorMessage := some "bad" })
    { status := 400, errorCode := some "BAD_REQUEST", errorMessage := some "bad" }
    DEFAULT_RETRIES DEFAULT_RETRY_DELAY_MS rfl ⟨by decide, by decide, by decide⟩

/-- C1: counter-evidence. A 429 response carrying `Retry-After: 1` with a
configured retry base delay of 100 ms makes the client sleep exactly 100 ms —
the generic retryable branch fires before the dead `Retry-After` branch — so
the client does not wait the header-specified 1 second (1000 ms) before the
retry. -/
theorem request_429_ignores_retry_after :
    (request (fun n => if n == 0 then
        .httpError { status := 429, retryAfter := some 1 } else .ok "ok")
      DEFAULT_RETRIES 100).waits = [100] ∧
    (request (fun n => if n == 0 then
        .httpError { status := 429, retryAfter := some 1 } else .ok "ok")
      DEFAULT_RETRIES 100).attempts = 2 ∧
    100 < 1 * 1000 := by
  refine ⟨?_, ?_, by omega⟩ <;> rfl

/-- A valid cached token is reused for a whole sequence of calls: as long as
every call time satisfies `t + bufferMs < expiry`, no credential-exchange
call is made and the cache is untouched. -/
theorem exchangeCalls_cached (exchange : AuthExchange) (tok : String) (expiry : Int) :
    ∀ ts : List Int, (∀ t ∈ ts, t + bufferMs < expiry) →
      exchangeCalls exchange ts ⟨some tok, some expiry⟩ = 0 := by
  intro ts
  induction ts with
  | nil => intro _; rfl
  | cons t ts ih =>
      intro h
      have ht : t + bufferMs < expiry := h t (List.mem_cons_self t ts)
      simp only [exchangeCalls, getAccessToken, ht, if_true, if_pos ht]
      simpa using ih fun u hu => h u (List.mem_cons_of_mem t hu)

/-- C6: `getAccessToken` returns the cached token without a
credential-exchange call whenever `now + bufferMs < expiry`; otherwise —
expired cache or empty cache — it makes exactly one exchange call and caches
the token with expiry `now + expiresIn * 1000`. Consequently any sequence of
calls starting from an empty cache whose later calls all happen before
expiry-minus-buffer performs exactly one credential-exchange call. -/
theorem getAccessToken_cache_spec (exchange : AuthExchange) (now : Int)
    (tok : String) (expiry : Int) (t0 : Int) (ts : List Int)
    (hts : ∀ t ∈ ts, t + bufferMs < t0 + exchange.expiresIn * 1000) :
    (now + bufferMs < expiry →
      getAccessToken exchange now ⟨some tok, some expiry⟩ =
        (tok, ⟨some tok, some expiry⟩, false)) ∧
    (¬ now + bufferMs < expiry →
      getAccessToken exchange now ⟨some tok, some expiry⟩ =
        (exchange.token,
          ⟨some exchange.token, some (now + exchange.expiresIn * 1000)⟩, true)) ∧
    getAccessToken exchange now {} =
      (exchange.token,
        ⟨some exchange.token, some (now + exchange.expiresIn * 1000)⟩, true) ∧
    exchangeCalls exchange (t0 :: ts) {} = 1 := by
  refine ⟨fun h => by simp [getAccessToken, h], fun h => by simp [getAccessToken, h],
    rfl, ?_⟩
  simp only [exchangeCalls, getAccessToken]
  rw [exchangeCalls_cached exchange exchange.token (t0 + exchange.expiresIn * 1000) ts hts]
  simp

/-- C6 witness: with a one-hour token obtained at time 0, later calls at
1 s and 2 s reuse the cache; in total exactly one exchange call is made. -/
theorem getAccessToken_cache_spec_witness :
    (¬ (0 : Int) + bufferMs < 0 →
      getAccessToken ⟨"tok", 3600⟩ 0 ⟨some "old", some 0⟩ =
        ("tok", ⟨some "tok", some ((0 : Int) + 3600 * 1000)⟩, true)) ∧
    exchangeCalls ⟨"tok", 3600⟩ [0, 1000, 2000] {} = 1 := by
  have h := getAccessToken_cache_spec ⟨"tok", 3600⟩ 0 "old" 0 0 [1000, 2000]
    (by intro t ht; fin_cases ht <;> decide)
  exact ⟨h.2.1, h.2.2.2⟩

/-- C7: `cancelOrder` maps a vendor rejection with code `TICKET_NOT_FOUND` or
`INVALID_TICKET_STATUS` to the success value `true`; a vendor
`SkyTabApiError` with any other code is rethrown unchanged. -/
theorem cancelOrder_idempotent_success (e : SkyTabApiError) :
    ((e.code = "TICKET_NOT_FOUND" ∨ e.code = "INVALID_TICKET_STATUS") →
      cancelOrder (.err (.api e)) = .ok true) ∧
    (e.code ≠ "TICKET_NOT_FOUND" → e.code ≠ "INVALID_TICKET_STATUS" →
      cancelOrder (.err (.api e)) = .error e) := by
  constructor
  · intro h
    rcases h with h | h <;> simp [cancelOrder, h]
  · intro h1 h2
    simp [cancelOrder, handleApiError, h1, h2]

/-- C7 witness: `TICKET_NOT_FOUND` yields `true`; an unrelated vendor error
(`PAYMENT_DECLINED`) is rethrown. -/
theorem cancelOrder_idempotent_success_witness :
    cancelOrder (.err (.api ⟨"nf", "TICKET_NOT_FOUND", 404, none⟩)) = .ok true ∧
    cancelOrder (.err (.api ⟨"pd", "PAYMENT_DECLINED", 402, none⟩)) =
      .error ⟨"pd", "PAYMENT_DECLINED", 402, none⟩ :=
  ⟨(cancelOrder_idempotent_success ⟨"nf", "TICKET_NOT_FOUND", 404, none⟩).1
      (Or.inl rfl),
    (cancelOrder_idempotent_success ⟨"pd", "PAYMENT_DECLINED", 402, none⟩).2
      (by decide) (by decide)⟩

/-- C9: both vendor-status mappings are total: every input yields exactly one
neutral status drawn from the defined sets, and any input outside the vendor
`SkyTabTicketStatus` enum maps to `pending` in both, without throwing. -/
theorem status_mappings_total (s : String) :
    mapSkyTabStatusToLocal s ∈
      ["pending", "confirmed", "preparing", "ready", "completed", "cancelled"] ∧
    mapSkyTabStatusToOrderStatus s ∈
      ["pending", "confirmed", "preparing", "ready", "out-for-delivery",
        "completed", "cancelled"] ∧
    (s ∉ skyTabTicketStatuses →
      mapSkyTabStatusToLocal s = "pending" ∧
      mapSkyTabStatusToOrderStatus s = "pending") := by
  refine ⟨?_, ?_, ?_⟩
  · unfold mapSkyTabStatusToLocal
    split <;> simp
  · unfold mapSkyTabStatusToOrderStatus
    split <;> simp
  · intro hs
    simp only [skyTabTicketStatuses, List.mem_cons, List.not_mem_nil, or_false,
      not_or] at hs
    obtain ⟨h1, h2, h3, h4, h5, h6, h7⟩ := hs
    constructor
    · unfold mapSkyTabStatusToLocal
      split <;> simp_all
    · unfold mapSkyTabStatusToOrderStatus
      split <;> simp_all

/-- C9 witness: the unrecognized vendor status `VOIDED` maps to `pending` in
both mappings, and `PENDING` itself maps into the defined sets. -/
theorem status_mappings_total_witness :
    mapSkyTabStatusToLocal "VOIDED" = "pending" ∧
    mapSkyTabStatusToOrderStatus "VOIDED" = "pending" ∧
    mapSkyTabStatusToLocal "PENDING" ∈
      ["pending", "confirmed", "preparing", "ready", "completed", "cancelled"] := by
  have h := status_mappings_total "VOIDED"
  have h2 := status_mappings_total "PENDING"
  exact ⟨(h.2.2 (by decide)).1, (h.2.2 (by decide)).2, h2.1⟩

/-- Recording a webhook event — with any processing status — makes
`checkDuplicateEvent` see that `eventId` from then on. -/
theorem checkDuplicateEvent_recordWebhookEvent (eventId status : String)
    (errorMessage : Option String) (st : DbState) :
    checkDuplicateEvent eventId (recordWebhookEvent eventId status errorMessage st) =
      true := by
  simp [checkDuplicateEvent, recordWebhookEvent, List.any_append]

/-- A recorded duplicate `eventId` makes `processWebhook` short-circuit:
success result, message `Event already processed`, state untouched. -/
theorem processWebhook_duplicate_skips (handlerThrows : Bool) (now : Int)
    (p : WebhookPayload) (st : DbState)
    (hdup : checkDuplicateEvent p.eventId st = true) :
    processWebhook handlerThrows now p st =
      (.ok ⟨true, "Event already processed"⟩, st) := by
  simp [processWebhook, hdup]

/-- C3: webhook idempotency. For a not-yet-recorded `eventId`, the first
delivery succeeds and records the event; the second delivery of the same
`eventId` — whatever its handler would do — changes nothing at all and still
reports success. So across the two deliveries the domain state is mutated
exactly once, by the first. -/
theorem processWebhook_idempotent (p : WebhookPayload) (st : DbState)
    (now now2 : Int) (b : Bool)
    (hfresh : checkDuplicateEvent p.eventId st = false) :
    (processWebhook false now p st).1 =
      .ok ⟨true, s!"Event {p.eventType} processed successfully"⟩ ∧
    (processWebhook false now p st).2 =
      recordWebhookEvent p.eventId "processed" none (dispatchEvent now p st) ∧
    processWebhook b now2 p (processWebhook false now p st).2 =
      (.ok ⟨true, "Event already processed"⟩, (processWebhook false now p st).2) := by
  have hstep : processWebhook false now p st =
      (.ok ⟨true, s!"Event {p.eventType} processed successfully"⟩,
        recordWebhookEvent p.eventId "processed" none (dispatchEvent now p st)) := by
    simp [processWebhook, hfresh]
  refine ⟨by rw [hstep], by rw [hstep], ?_⟩
  apply processWebhook_duplicate_skips
  rw [hstep]
  exact checkDuplicateEvent_recordWebhookEvent p.eventId "processed" none _

/-- C3 witness: a `ticket.status_changed` event delivered twice to a one-order
database: the second delivery reports success and leaves the state of the
first delivery unchanged. -/
theorem processWebhook_idempotent_witness :
    (processWebhook false 5
        ⟨"ticket.status_changed", "evt-1", "loc-1",
          .ticket ⟨"tg-1", some "ord-1", "READY", none, none⟩⟩
        { orders := [{ id := "ord-1" }] }).1 =
      .ok ⟨true, "Event ticket.status_changed processed successfully"⟩ ∧
    processWebhook true 6
        ⟨"ticket.status_changed", "evt-1", "loc-1",
          .ticket ⟨"tg-1", some "ord-1", "READY", none, none⟩⟩
        (processWebhook false 5
          ⟨"ticket.status_changed", "evt-1", "loc-1",
            .ticket ⟨"tg-1", some "ord-1", "READY", none, none⟩⟩
          { orders := [{ id := "ord-1" }] }).2 =
      (.ok ⟨true, "Event already processed"⟩,
        (processWebhook false 5
          ⟨"ticket.status_changed", "evt-1", "loc-1",
            .ticket ⟨"tg-1", some "ord-1", "READY", none, none⟩⟩
          { orders := [{ id := "ord-1" }] }).2) := by
  have h := processWebhook_idempotent
    ⟨"ticket.status_changed", "evt-1", "loc-1",
      .ticket ⟨"tg-1", some "ord-1", "READY", none, none⟩⟩
    { orders := [{ id := "ord-1" }] } 5 6 true (by decide)
  exact ⟨h.1, h.2.2⟩

/-- C10: dedup ignores processing outcomes. A first delivery whose handler
throws records the event with status `failed` and rethrows; every later
delivery of that `eventId` — even one whose handler would now succeed — is
skipped as a duplicate, reports success, and never reprocesses the event. -/
theorem processWebhook_failed_never_reprocessed (p : WebhookPayload)
    (st : DbState) (now now2 : Int) (b : Bool)
    (hfresh : checkDuplicateEvent p.eventId st = false) :
    (processWebhook true now p st).1 = .error "Failed to process webhook" ∧
    (processWebhook true now p st).2 =
      recordWebhookEvent p.eventId "failed" (some "Failed to process webhook") st ∧
    processWebhook b now2 p (processWebhook true now p st).2 =
      (.ok ⟨true, "Event already processed"⟩, (processWebhook true now p st).2) := by
  have hstep : processWebhook true now p st =
      (.error "Failed to process webhook",
        recordWebhookEvent p.eventId "failed" (some "Failed to process webhook") st) := by
    simp [processWebhook, hfresh]
  refine ⟨by rw [hstep], by rw [hstep], ?_⟩
  apply processWebhook_duplicate_skips
  rw [hstep]
  exact checkDuplicateEvent_recordWebhookEvent p.eventId "failed" _ _

/-- C10 witness: a failed `stock.updated` delivery followed by a redelivery
whose handler would succeed: the redelivery is skipped and reports success. -/
theorem processWebhook_failed_never_reprocessed_witness :
    (processWebhook true 1 ⟨"stock.updated", "evt-9", "loc-1", .stock ⟨[("i1", false)]⟩⟩
        {}).1 = .error "Failed to process webhook" ∧
    processWebhook false 2 ⟨"stock.updated", "evt-9", "loc-1", .stock ⟨[("i1", false)]⟩⟩
        (processWebhook true 1
          ⟨"stock.updated", "evt-9", "loc-1", .stock ⟨[("i1", false)]⟩⟩ {}).2 =
      (.ok ⟨true, "Event already processed"⟩,
        (processWebhook true 1
          ⟨"stock.updated", "evt-9", "loc-1", .stock ⟨[("i1", false)]⟩⟩ {}).2) := by
  have h := processWebhook_failed_never_reprocessed
    ⟨"stock.updated", "evt-9", "loc-1", .stock ⟨[("i1", false)]⟩⟩ {} 1 2 false (by decide)
  exact ⟨h.1, h.2.2⟩

/-- C4: webhook endpoint responses. A signature whose hex-decoded length
differs from the decoded expected digest fails verification, and a failed
verification makes the endpoint answer 401 with every piece of state
untouched and no background processing scheduled; a verified request is
answered 200 with `received: true` — also when the handler body throws, in
which case the body carries `error: "Processing failed"`. -/
theorem webhook_endpoint_responses (expectedHex signature : String)
    (storeThrows : Bool) (p : WebhookPayload) (st : RouteState) :
    ((hexDecode signature.data).length ≠ (hexDecode expectedHex.data).length →
      verifySignature true expectedHex signature = false) ∧
    (verifySignature true expectedHex signature = false →
      webhookRoute (verifySignature true expectedHex signature) storeThrows p st =
        ({ status := 401, received := false,
            error := some "Invalid webhook signature" }, st)) ∧
    (webhookRoute true storeThrows p st).1.status = 200 ∧
    (webhookRoute true storeThrows p st).1.received = true ∧
    (webhookRoute true true p st).1.error = some "Processing failed" := by
  refine ⟨?_, ?_, ?_, ?_, ?_⟩
  · intro h
    simp only [verifySignature, Bool.not_true, Bool.false_eq_true, if_false]
    rw [if_pos]
    simpa using h
  · intro h
    rw [h]
    simp [webhookRoute]
  · cases storeThrows <;> simp [webhookRoute]
  · cases storeThrows <;> simp [webhookRoute]
  · simp [webhookRoute]

/-- C4 witness: the 2-byte expected digest `aabb` against the 1-byte
signature `aa`: verification fails and the endpoint answers 401 leaving the
empty state untouched; with a valid signature the endpoint answers 200. -/
theorem webhook_endpoint_responses_witness :
    verifySignature true "aabb" "aa" = false ∧
    webhookRoute (verifySignature true "aabb" "aa") false
        ⟨"ticket.created", "e", "l", .empty⟩ {} =
      ({ status := 401, received := false,
          error := some "Invalid webhook signature" }, {}) ∧
    (webhookRoute true false ⟨"ticket.created", "e", "l", .empty⟩ {}).1.status = 200 := by
  have h := webhook_endpoint_responses "aabb" "aa" false
    ⟨"ticket.created", "e", "l", .empty⟩ {}
  have hlen : (hexDecode "aa".data).length ≠ (hexDecode "aabb".data).length := by decide
  exact ⟨h.1 hlen, h.2.1 (h.1 hlen), h.2.2.1⟩

/-- C5: retry-sweep bounds. With primary keys distinct and every row within
its retry budget: (1) every row the sweep selects is `pending` or `retrying`
with `retryCount < maxRetries` — so `completed` and `abandoned` rows are
never selected (2); (3) after the sweep every row still satisfies
`retryCount ≤ maxRetries`; and (4) a failed retry whose incremented count
reaches `maxRetries` moves the row to `abandoned`. -/
theorem retry_sweep_bounds (succeeds : Nat → Bool) (now : Int)
    (rows : List FailedRow) (r0 : FailedRow)
    (hids : ((rows.map FailedRow.id).Nodup))
    (hinv : ∀ r ∈ rows, r.retryCount ≤ r.maxRetries) :
    (∀ r ∈ (rows.filter (sweepSelects now)).take 10,
      (r.status = "pending" ∨ r.status = "retrying") ∧ r.retryCount < r.maxRetries) ∧
    ((r0.status = "completed" ∨ r0.status = "abandoned") →
      sweepSelects now r0 = false) ∧
    (∀ r ∈ sweep succeeds now rows, r.retryCount ≤ r.maxRetries) ∧
    (r0.retryCount + 1 ≥ r0.maxRetries →
      (retryRow false now r0).status = "abandoned") := by
  refine ⟨?_, ?_, ?_, ?_⟩
  · intro r hr
    have hf := List.mem_filter.1 (List.mem_of_mem_take hr)
    have hsel := hf.2
    simp only [sweepSelects, Bool.and_eq_true, Bool.or_eq_true, beq_iff_eq,
      decide_eq_true_eq] at hsel
    exact ⟨hsel.1.1, hsel.1.2⟩
  · intro h
    rcases h with h | h <;> simp [sweepSelects, h]
  · intro r hr
    simp only [sweep, List.mem_map] at hr
    obtain ⟨a, ha, hra⟩ := hr
    by_cases hcond :
        (((rows.filter (sweepSelects now)).take 10).any fun s => s.id == a.id) = true
    · obtain ⟨s, hs, hsid⟩ := List.any_eq_true.1 hcond
      have hsmem := List.mem_filter.1 (List.mem_of_mem_take hs)
      have hsa : s = a :=
        List.inj_on_of_nodup_map hids hsmem.1 ha (by simpa using hsid)
      have hasel : sweepSelects now a = true := hsa ▸ hsmem.2
      have hlt : a.retryCount < a.maxRetries := by
        simp only [sweepSelects, Bool.and_eq_true, decide_eq_true_eq] at hasel
        exact hasel.1.2
      rw [← hra]
      simp only [hcond, if_true]
      cases hsucc : succeeds a.id <;> simp [retryRow, hsucc] <;> omega
    · rw [← hra]
      simp only [sweep] at hcond ⊢
      rw [if_neg (by simpa using hcond)]
      exact hinv a ha
  · intro h
    simp [retryRow, h]

/-- C5 witness: a two-row table — one `pending` row within budget, one
`abandoned` row — the `abandoned` row is not selected, bounds hold after the
sweep, and a failed retry at `retryCount + 1 = maxRetries` abandons the row. -/
theorem retry_sweep_bounds_witness :
    ((∀ r ∈ sweep (fun _ => false) 0
        [{ id := 1, retryCount := 2, maxRetries := 3 },
         { id := 2, status := "abandoned", retryCount := 3, maxRetries := 3 }],
      r.retryCount ≤ r.maxRetries) ∧
    sweepSelects 0 { id := 2, status := "abandoned", retryCount := 3, maxRetries := 3 } =
      false ∧
    (retryRow false 0 { id := 1, retryCount := 2, maxRetries := 3 }).status =
      "abandoned") := by
  have h := retry_sweep_bounds (fun _ => false) 0
    [{ id := 1, retryCount := 2, maxRetries := 3 },
     { id := 2, status := "abandoned", retryCount := 3, maxRetries := 3 }]
    { id := 1, retryCount := 2, maxRetries := 3 }
    (by decide) (by intro r hr; fin_cases hr <;> decide)
  have h2 := retry_sweep_bounds (fun _ => false) 0
    [{ id := 1, retryCount := 2, maxRetries := 3 },
     { id := 2, status := "abandoned", retryCount := 3, maxRetries := 3 }]
    { id := 2, status := "abandoned", retryCount := 3, maxRetries := 3 }
    (by decide) (by intro r hr; fin_cases hr <;> decide)
  exact ⟨h.2.2.1, h2.2.1 (Or.inr rfl), h.2.2.2 (by decide)⟩

end SkyTab
